import Mathlib

/-!
Formal model of the gpu-temp-monitor service (`main.go`).

The Go program is a single-threaded supervisory loop.  We embed its pure
computational core shallowly:

* Go strings are modelled as `List Char`; the handful of standard-library
  string functions the program uses (`strings.TrimSpace`, `strings.Split`,
  `strings.HasPrefix`, `strings.Contains`, `strconv.Atoi`,
  `strconv.ParseFloat`) are given executable Lean counterparts.
  `strconv.ParseFloat` is modelled on plain decimal literals (optional sign,
  digits, optional fractional part) — the only shapes the program's two data
  sources (nvidia-smi CSV rows and the Arduino line protocol) can produce;
  exponent/hex/inf forms never arise here.  Overflow of 64-bit integers and
  float rounding are ignored: temperatures and indices in this program are
  tiny, so `ℤ`/`ℚ` are exact models.
* `float64` temperatures become `ℚ`, Go `int` becomes `ℤ`; the Go conversion
  `int(x)` (truncation toward zero) is `goTrunc`.
* Effectful calls (running nvidia-smi, serial open/write/read, alert
  dispatch) are modelled by passing their outcomes in explicitly: a tick
  receives the acquired GPU rows (or `none` for a failed acquisition), the
  at-most-one serial line the non-blocking scanner read, and a boolean
  outcome for each of the five send/write sites in `monitorAndControl`.
  Event payload strings (log/alert message formatting) are out of scope;
  events are modelled by their kind.
-/

/-! ## Go string primitives -/

/-- Whitespace recognised by `strings.TrimSpace` (ASCII subset; the program
only ever sees ASCII device output). -/
def isSpaceChar (c : Char) : Bool :=
  c = ' ' || c = '\t' || c = '\n' || c = '\x0b' || c = '\x0c' || c = '\r'

/-- Model of `strings.TrimSpace`. -/
def trimSpace (s : List Char) : List Char :=
  ((s.dropWhile isSpaceChar).reverse.dropWhile isSpaceChar).reverse

/-- Model of `strings.HasPrefix s pre`. -/
def goStartsWith : List Char → List Char → Bool
  | _, [] => true
  | [], _ :: _ => false
  | c :: s, p :: ps => if c = p then goStartsWith s ps else false

/-- Model of `strings.Contains s sub`. -/
def goContains : List Char → List Char → Bool
  | [], sub => sub.isEmpty
  | c :: rest, sub => goStartsWith (c :: rest) sub || goContains rest sub

/-- Helper shared by the split functions: prepend a character to the first
piece of a split result. -/
def consPiece (c : Char) : List (List Char) → List (List Char)
  | [] => [[c]]
  | p :: ps => (c :: p) :: ps

/-- Model of `strings.Split s ","` (used on each nvidia-smi CSV row). -/
def splitComma : List Char → List (List Char)
  | [] => [[]]
  | c :: rest =>
    if c = ',' then [] :: splitComma rest else consPiece c (splitComma rest)

/-- Model of `strings.Split s "\n"` (used on the trimmed nvidia-smi output). -/
def splitLines : List Char → List (List Char)
  | [] => [[]]
  | c :: rest =>
    if c = '\n' then [] :: splitLines rest else consPiece c (splitLines rest)

/-- The separator `"-H:"` of the DHT22 message format. -/
def hsepSep : List Char := '-' :: 'H' :: ':' :: []

/-- Model of `strings.Split s "-H:"` (used on the DHT22 message body).
Go splits on every non-overlapping leftmost occurrence of the separator. -/
def splitHsep : List Char → List (List Char)
  | [] => [[]]
  | c :: rest =>
    if c = '-' then
      match rest with
      | 'H' :: ':' :: rest2 => [] :: splitHsep rest2
      | r => consPiece c (splitHsep r)
    else consPiece c (splitHsep rest)

/-- Numeric value of a digit string (most significant first); meaningful only
when every character is a digit. -/
def digitsToNat (s : List Char) : ℕ :=
  s.foldl (fun a c => a * 10 + (c.toNat - 48)) 0

/-- Digit-run parser used by `goAtoi`: succeeds only when every remaining
character is a decimal digit. -/
def goParseDigits : List Char → ℕ → Option ℕ
  | [], acc => some acc
  | c :: cs, acc =>
    if c.isDigit then goParseDigits cs (acc * 10 + (c.toNat - 48)) else none

/-- Model of `strconv.Atoi`: optional sign followed by at least one digit;
anything else is an error (`none`). -/
def goAtoi (s : List Char) : Option ℤ :=
  match s with
  | [] => none
  | c :: rest =>
    if c = '+' then
      if rest = [] then none else (goParseDigits rest 0).map Int.ofNat
    else if c = '-' then
      if rest = [] then none else (goParseDigits rest 0).map (fun n => -(n : ℤ))
    else
      (goParseDigits s 0).map Int.ofNat

/-- Unsigned part of `strconv.ParseFloat` on plain decimal literals:
`digits`, `digits.`, `.digits` or `digits.digits`; at least one digit must
be present. -/
def parseUnsignedFloat (s : List Char) : Option ℚ :=
  let ip := s.takeWhile Char.isDigit
  let rest := s.dropWhile Char.isDigit
  match rest with
  | [] => if ip = [] then none else some (digitsToNat ip : ℚ)
  | c :: frac =>
    if c = '.' then
      if frac.all Char.isDigit ∧ (ip ≠ [] ∨ frac ≠ []) then
        some ((digitsToNat ip : ℚ) + (digitsToNat frac : ℚ) / (10 : ℚ) ^ frac.length)
      else none
    else none

/-- Model of `strconv.ParseFloat` on plain decimal literals with an optional
leading sign. -/
def goParseFloat (s : List Char) : Option ℚ :=
  match s with
  | [] => none
  | c :: rest =>
    if c = '+' then parseUnsignedFloat rest
    else if c = '-' then (parseUnsignedFloat rest).map Neg.neg
    else parseUnsignedFloat s

/-- Decimal rendering of an integer, as produced by `fmt.Sprintf("%d", n)`. -/
def goIntToString (n : ℤ) : List Char :=
  if n < 0 then '-' :: Nat.toDigits 10 (-n).toNat else Nat.toDigits 10 n.toNat

/-! ## Data model (`main.go` types and configuration constants) -/

/-- Configuration thresholds (the fields of `Config` the core logic reads;
API key, channel name, interval and serial parameters only feed the
out-of-scope I/O plumbing). -/
structure Config where
  WarningThreshold : ℚ
  CriticalThreshold : ℚ
  AmbientThreshold : ℚ
deriving DecidableEq

/-- The default thresholds: `defaultWarningThreshold = 70.0`,
`defaultCriticalThreshold = 80.0`, `defaultAmbientThreshold = 24.0`. -/
def defaultConfig : Config :=
  { WarningThreshold := 70, CriticalThreshold := 80, AmbientThreshold := 24 }

/-- One parsed nvidia-smi row (`GPUTemperature` in `main.go`). -/
structure GPUTemperature where
  Index : ℤ
  Temperature : ℚ
  Name : List Char
deriving DecidableEq

/-- One parsed ambient reading (`DHT22Reading` in `main.go`). -/
structure DHT22Reading where
  Temperature : ℚ
  Humidity : ℚ
deriving DecidableEq

/-- The persistent mutable state (`AlertState` in `main.go`). -/
structure AlertState where
  GPUWarning : Bool
  GPUCritical : Bool
  AmbientWarning : Bool
  LastFanSpeed : ℤ
  LastAmbientTemp : ℚ
deriving DecidableEq

/-- The state created in `main`: Go zero values for the flags and the last
ambient temperature, `LastFanSpeed: 50` ("Match Arduino default"). -/
def initialAlertState : AlertState :=
  { GPUWarning := false, GPUCritical := false, AmbientWarning := false,
    LastFanSpeed := 50, LastAmbientTemp := 0 }

/-- Kind of a GPU alert successfully handed to `apialerts.SendAsync`. -/
inductive GpuEvent where
  | warning
  | critical
  | recovery
deriving DecidableEq

/-- Kind of an ambient alert successfully handed to `apialerts.SendAsync`. -/
inductive AmbEvent where
  | warning
  | recovery
deriving DecidableEq

/-- An alert event successfully dispatched during a tick. -/
inductive Event where
  | gpu (e : GpuEvent)
  | amb (e : AmbEvent)
deriving DecidableEq

/-! ## Sensor adapter (`getGPUTemperatures`, `parseDHT22Message`) -/

/-- The body of the per-line loop of `getGPUTemperatures`: `continue`
(here `none`) on an empty line, on fewer than three comma-separated fields,
on a non-integer index or on a non-numeric temperature; otherwise the parsed
row. -/
def parseGPULine (line : List Char) : Option GPUTemperature :=
  if line = [] then none
  else
    let fields := splitComma line
    if fields.length < 3 then none
    else
      match goAtoi (trimSpace (fields.getD 0 [])),
            goParseFloat (trimSpace (fields.getD 1 [])) with
      | some index, some temp =>
        some { Index := index, Temperature := temp, Name := trimSpace (fields.getD 2 []) }
      | _, _ => none

/-- Model of `getGPUTemperatures`.  The input is the outcome of running
nvidia-smi: `none` when `cmd.Output()` itself failed (the only error path in
the Go function), otherwise the raw output text.  The output text is trimmed,
split into lines, and each line is folded through the per-line parser. -/
def getGPUTemperatures (toolOutput : Option (List Char)) : Option (List GPUTemperature) :=
  match toolOutput with
  | none => none
  | some output =>
    let lines := splitLines (trimSpace output)
    some (lines.foldl
      (fun temps line =>
        match parseGPULine line with
        | some t => temps ++ [t]
        | none => temps)
      [])

/-- The tag prefix `"MSG:T:"` recognised by `parseDHT22Message`. -/
def msgTag : List Char := 'M' :: 'S' :: 'G' :: ':' :: 'T' :: ':' :: []

/-- Model of `parseDHT22Message`.  The Go function returns
`(*DHT22Reading, error)`; all its error returns are collapsed to `none`,
which is exactly how the caller treats them (`if reading, err := ...; err == nil`). -/
def parseDHT22Message (line : List Char) : Option DHT22Reading :=
  if goStartsWith line msgTag then
    let parts := splitHsep (line.drop 6)
    if parts.length = 2 then
      match goParseFloat (parts.getD 0 []), goParseFloat (parts.getD 1 []) with
      | some tempRaw, some humRaw =>
        some { Temperature := tempRaw / 10, Humidity := humRaw / 10 }
      | _, _ => none
    else none
  else none

/-! ## Fan curve controller (`calculateFanSpeed`, `setFanSpeed`) -/

/-- Go conversion `int(x)` on a float: truncation toward zero. -/
def goTrunc (q : ℚ) : ℤ :=
  if 0 ≤ q then ⌊q⌋ else -⌊-q⌋

/-- The running maximum computed by both `calculateFanSpeed` and the alert
section of `monitorAndControl`: `maxTemp := 0.0` then
`if gpu.Temperature > maxTemp { maxTemp = gpu.Temperature }`. -/
def maxGpuTemp (gpuTemps : List GPUTemperature) : ℚ :=
  gpuTemps.foldl (fun m g => if m < g.Temperature then g.Temperature else m) 0

/-- The `switch` ladder of `calculateFanSpeed` as a function of the running
maximum temperature. -/
def fanCurve (maxTemp : ℚ) : ℤ :=
  if maxTemp < 50 then 30
  else if maxTemp < 60 then 30 + goTrunc ((maxTemp - 50) * 2)
  else if maxTemp < 70 then 50 + goTrunc ((maxTemp - 60) * (5 / 2 : ℚ))
  else if maxTemp < 80 then 75 + goTrunc ((maxTemp - 70) * (3 / 2 : ℚ))
  else 100

/-- Model of `calculateFanSpeed`: `50` ("Default speed") for an empty slice,
otherwise the fan curve applied to the running maximum. -/
def calculateFanSpeed (gpuTemps : List GPUTemperature) : ℤ :=
  if gpuTemps = [] then 50 else fanCurve (maxGpuTemp gpuTemps)

/-- The single line `setFanSpeed` writes to the serial port:
the speed is clamped to `[0, 100]` and formatted as `FAN:<n>\n`. -/
def setFanSpeedLine (speed : ℤ) : List Char :=
  let s1 := if speed < 0 then 0 else speed
  let s2 := if s1 > 100 then 100 else s1
  ('F' :: 'A' :: 'N' :: ':' :: []) ++ goIntToString s2 ++ ['\n']

/-! ## Device discovery (`detectArduino`) -/

/-- What one candidate serial path would do if probed: whether
`serial.OpenPort` succeeds, whether the test-command write succeeds, and the
lines the scanner would deliver before the 5-second deadline.  Timing is
abstracted away: `lines` are exactly the lines available within the
deadline. -/
structure CandidateBehavior where
  openOk : Bool
  writeOk : Bool
  lines : List (List Char)
deriving DecidableEq

/-- The signature test of `detectArduino` applied to a trimmed line. -/
def arduinoSignature (line : List Char) : Bool :=
  goContains line ("Fan controller started".toList) ||
  goContains line ("MSG:T:".toList) ||
  goContains line ("FAN:".toList) ||
  goContains line ("ERR:TEMP_READ_FAIL".toList)

/-- One iteration of the candidate loop of `detectArduino`: the candidate is
accepted exactly when the port opens, the probe write succeeds, and some
received line is nonempty after trimming and contains a recognised
signature. -/
def probeCandidate (b : CandidateBehavior) : Bool :=
  if !b.openOk then false
  else if !b.writeOk then false
  else b.lines.any (fun raw =>
    let line := trimSpace raw
    !line.isEmpty && arduinoSignature line)

/-- The two failure modes of `detectArduino`. -/
inductive DetectError where
  | noDevices
  | notFound (checked : List String)
deriving DecidableEq

/-- The candidate loop: returns the first responding candidate (its path and
its open handle, modelled by the behaviour record) together with the number
of `serial.OpenPort` attempts made; scanning stops at the first match. -/
def detectScan : List (String × CandidateBehavior) → Option (String × CandidateBehavior) × ℕ
  | [] => (none, 0)
  | (p, b) :: rest =>
    if probeCandidate b then (some (p, b), 1)
    else
      let r := detectScan rest
      (r.1, r.2 + 1)

/-- Model of `detectArduino`, given the glob-enumerated candidate list (path
enumeration itself is OS interaction): empty candidate list fails with
`noDevices` before any open; otherwise the candidates are probed in order,
and if none responds the error carries every checked path. -/
def detectArduino (candidates : List (String × CandidateBehavior)) :
    Except DetectError (String × CandidateBehavior) × ℕ :=
  if candidates = [] then (Except.error DetectError.noDevices, 0)
  else
    match detectScan candidates with
    | (some found, n) => (Except.ok found, n)
    | (none, n) => (Except.error (DetectError.notFound (candidates.map (fun c => c.1))), n)

/-! ## The supervisory tick (`monitorAndControl`) -/

/-- Outcomes of the effectful calls inside one `monitorAndControl` tick:
the acquired GPU rows (`none` = `getGPUTemperatures` returned an error), the
at-most-one line the non-blocking scanner loop read, and the success of each
`setFanSpeed` / `apialerts.SendAsync` call site, should it be reached. -/
structure TickInput where
  gpu : Option (List GPUTemperature)
  serialLine : Option (List Char)
  fanWriteOk : Bool
  critSendOk : Bool
  warnSendOk : Bool
  recvSendOk : Bool
  ambWarnSendOk : Bool
  ambRecvSendOk : Bool
deriving DecidableEq

/-- The fan-speed section of the tick: compute the duty cycle, and only when
it differs from `LastFanSpeed` attempt the serial write; on success record
the new value, on failure leave the state unchanged. -/
def fanControlStep (st : AlertState) (gpuTemps : List GPUTemperature)
    (writeOk : Bool) : AlertState :=
  let fanSpeed := calculateFanSpeed gpuTemps
  if fanSpeed ≠ st.LastFanSpeed then
    if writeOk then { st with LastFanSpeed := fanSpeed } else st
  else st

/-- The GPU alert section of the tick, mirroring the
critical / warning / recovery `if` ladder of `monitorAndControl`.
`critOk`, `warnOk`, `recvOk` are the outcomes of the three `SendAsync` call
sites.  Note the asymmetry faithfully carried over from the source: the
critical and warning flags flip only on a successful send, but in the
recovery branch both flags are cleared after the send attempt regardless of
its outcome. -/
def gpuAlertStep (cfg : Config) (st : AlertState) (gpuTemps : List GPUTemperature)
    (critOk warnOk recvOk : Bool) : AlertState × Option GpuEvent :=
  let maxTemp := maxGpuTemp gpuTemps
  if cfg.CriticalThreshold < maxTemp then
    if st.GPUCritical then (st, none)
    else if critOk then
      ({ st with GPUCritical := true, GPUWarning := true }, some GpuEvent.critical)
    else (st, none)
  else if cfg.WarningThreshold < maxTemp then
    let r1 : AlertState × Option GpuEvent :=
      if st.GPUWarning then (st, none)
      else if warnOk then ({ st with GPUWarning := true }, some GpuEvent.warning)
      else (st, none)
    let st2 := if r1.1.GPUCritical then { r1.1 with GPUCritical := false } else r1.1
    (st2, r1.2)
  else
    if st.GPUWarning || st.GPUCritical then
      ({ st with GPUWarning := false, GPUCritical := false },
        if recvOk then some GpuEvent.recovery else none)
    else (st, none)

/-- The ambient alert section of the tick for one parsed DHT22 reading;
`LastAmbientTemp` is updated unconditionally, as in the source. -/
def ambientStep (cfg : Config) (st : AlertState) (r : DHT22Reading)
    (warnOk recvOk : Bool) : AlertState × Option AmbEvent :=
  let r1 : AlertState × Option AmbEvent :=
    if cfg.AmbientThreshold < r.Temperature then
      if st.AmbientWarning then (st, none)
      else if warnOk then ({ st with AmbientWarning := true }, some AmbEvent.warning)
      else (st, none)
    else
      if st.AmbientWarning then
        if recvOk then ({ st with AmbientWarning := false }, some AmbEvent.recovery)
        else (st, none)
      else (st, none)
  ({ r1.1 with LastAmbientTemp := r.Temperature }, r1.2)

/-- The GPU half of `monitorAndControl`: skipped entirely when temperature
acquisition failed; otherwise fan control followed by the alert ladder. -/
def gpuSectionStep (cfg : Config) (st : AlertState) (inp : TickInput) :
    AlertState × Option GpuEvent :=
  match inp.gpu with
  | none => (st, none)
  | some gpuTemps =>
    let st1 := fanControlStep st gpuTemps inp.fanWriteOk
    gpuAlertStep cfg st1 gpuTemps inp.critSendOk inp.warnSendOk inp.recvSendOk

/-- The ambient half of `monitorAndControl`: the non-blocking scanner loop
reads at most one line per tick (`break` at the end of the first iteration);
a line that fails to parse is ignored. -/
def ambientSectionStep (cfg : Config) (st : AlertState) (inp : TickInput) :
    AlertState × Option AmbEvent :=
  match inp.serialLine with
  | none => (st, none)
  | some line =>
    match parseDHT22Message line with
    | none => (st, none)
    | some reading => ambientStep cfg st reading inp.ambWarnSendOk inp.ambRecvSendOk

/-- One full `monitorAndControl` tick: the GPU section then the ambient
section, returning the new state and the events successfully dispatched
during the tick, in dispatch order. -/
def monitorAndControl (cfg : Config) (st : AlertState) (inp : TickInput) :
    AlertState × List Event :=
  let g := gpuSectionStep cfg st inp
  let a := ambientSectionStep cfg g.1 inp
  (a.1, g.2.toList.map Event.gpu ++ a.2.toList.map Event.amb)

/-- The main loop: a sequence of ticks starting from a given state,
accumulating the dispatched events in order. -/
def runTicks (cfg : Config) : AlertState → List TickInput → AlertState × List Event
  | st, [] => (st, [])
  | st, inp :: rest =>
    let p := monitorAndControl cfg st inp
    let q := runTicks cfg p.1 rest
    (q.1, p.2 ++ q.2)

/-! ## Specification-side definitions

These follow the spec's vocabulary and are compared against the code-derived
definitions above; they are never used inside the code model itself. -/

/-- Spec invariant (§3): an open critical alert implies an open warning
alert. -/
def AlertInv (st : AlertState) : Prop :=
  st.GPUCritical = true → st.GPUWarning = true

instance : DecidablePred AlertInv := fun st =>
  inferInstanceAs (Decidable (st.GPUCritical = true → st.GPUWarning = true))

/-- The genuine maximum temperature of a reading list (0 for the empty list,
which the claims never use). -/
def listMaxTemp : List GPUTemperature → ℚ
  | [] => 0
  | g :: gs => gs.foldl (fun m x => max m x.Temperature) g.Temperature

/-- Spec-side transition function for the pair of GPU alert flags, written
from the spec's description of the hysteresis machine as a function of
`(previous flags, the tick's maximum reading, thresholds)` plus the dispatch
outcomes.  The amended claim C1 states that the code's GPU alert section
refines this function. -/
def gpuFlagsTransition (cfg : Config) (w c : Bool) (maxTemp : ℚ)
    (critOk warnOk : Bool) : Bool × Bool :=
  if cfg.CriticalThreshold < maxTemp then
    if c then (w, c) else if critOk then (true, true) else (w, c)
  else if cfg.WarningThreshold < maxTemp then
    (if w then w else if warnOk then true else w, false)
  else
    if w || c then (false, false) else (w, c)

/-- The GPU events of a dispatched-event trace, in order. -/
def gpuEventsOf (evs : List Event) : List GpuEvent :=
  evs.filterMap (fun e => match e with | Event.gpu g => some g | Event.amb _ => none)

/-- No two adjacent events of a GPU event sequence are both warnings. -/
def noConsecWarning (l : List GpuEvent) : Prop :=
  List.Chain' (fun a b => ¬(a = GpuEvent.warning ∧ b = GpuEvent.warning)) l

instance : DecidablePred noConsecWarning := fun l =>
  inferInstanceAs (Decidable
    (List.Chain' (fun a b => ¬(a = GpuEvent.warning ∧ b = GpuEvent.warning)) l))

/-! ## Lemmas about the string primitives -/

theorem goStartsWith_append (pre rest : List Char) : goStartsWith (pre ++ rest) pre = true := by
  induction pre with
  | nil => cases rest <;> rfl
  | cons c cs ih => simpa [goStartsWith] using ih

theorem digit_ne_dash {c : Char} (h : c.isDigit = true) : c ≠ '-' := by
  intro he; subst he; exact absurd h (by decide)

theorem digit_ne_plus {c : Char} (h : c.isDigit = true) : c ≠ '+' := by
  intro he; subst he; exact absurd h (by decide)

theorem splitHsep_cons_ne (c : Char) (rest : List Char) (h : c ≠ '-') :
    splitHsep (c :: rest) = consPiece c (splitHsep rest) := by
  rw [splitHsep.eq_def]
  simp only []
  rw [if_neg h]

theorem splitHsep_sep (b : List Char) :
    splitHsep ('-' :: 'H' :: ':' :: b) = [] :: splitHsep b := rfl

theorem splitHsep_no_dash (b : List Char) (hb : ∀ c ∈ b, c ≠ '-') :
    splitHsep b = [b] := by
  induction b with
  | nil => rfl
  | cons c rest ih =>
    rw [splitHsep_cons_ne c rest (hb c (by simp)),
      ih (fun x hx => hb x (by simp [hx]))]
    rfl

theorem splitHsep_mid (a b : List Char) (ha : ∀ c ∈ a, c ≠ '-') :
    splitHsep (a ++ hsepSep ++ b) = a :: splitHsep b := by
  induction a with
  | nil => simpa [hsepSep] using splitHsep_sep b
  | cons c rest ih =>
    have : splitHsep ((c :: rest) ++ hsepSep ++ b)
        = consPiece c (splitHsep (rest ++ hsepSep ++ b)) :=
      splitHsep_cons_ne c (rest ++ hsepSep ++ b) (ha c (by simp))
    rw [this, ih (fun x hx => ha x (by simp [hx]))]
    rfl

theorem goParseFloat_digits (a : List Char) (hne : a ≠ [])
    (ha : ∀ c ∈ a, c.isDigit = true) :
    goParseFloat a = some (digitsToNat a : ℚ) := by
  have htake : a.takeWhile Char.isDigit = a := List.takeWhile_eq_self_iff.mpr ha
  have hdrop : a.dropWhile Char.isDigit = [] := List.dropWhile_eq_nil_iff.mpr ha
  have hunsigned : parseUnsignedFloat a = some (digitsToNat a : ℚ) := by
    unfold parseUnsignedFloat
    rw [htake, hdrop]
    simp [hne]
  cases a with
  | nil => exact absurd rfl hne
  | cons c rest =>
    have hd : c.isDigit = true := ha c (by simp)
    simp only [goParseFloat, if_neg (digit_ne_plus hd), if_neg (digit_ne_dash hd)]
    exact hunsigned

/-! ## C6 — parseDHT22Message -/

/-- Claim C6: `parseDHT22Message` returns a reading with temperature and
humidity equal to the encoded integers divided by 10 for every well-formed
tagged line `MSG:T:<digits>-H:<digits>`, and returns no reading (rather than
aborting processing) for every line that does not start with the tag prefix
`MSG:T:`. -/
theorem claim_C6 :
    (∀ a b : List Char, a ≠ [] → b ≠ [] →
      (∀ c ∈ a, c.isDigit = true) → (∀ c ∈ b, c.isDigit = true) →
      parseDHT22Message (msgTag ++ a ++ hsepSep ++ b) =
        some { Temperature := (digitsToNat a : ℚ) / 10, Humidity := (digitsToNat b : ℚ) / 10 })
    ∧ (∀ line : List Char, goStartsWith line msgTag = false →
        parseDHT22Message line = none) := by
  constructor
  · intro a b hane hbne ha hb
    have hpre : goStartsWith (msgTag ++ a ++ hsepSep ++ b) msgTag = true := by
      rw [List.append_assoc, List.append_assoc]
      exact goStartsWith_append msgTag (a ++ (hsepSep ++ b))
    have hdrop : (msgTag ++ a ++ hsepSep ++ b).drop 6 = a ++ hsepSep ++ b := by
      rw [List.append_assoc, List.append_assoc,
        show (6 : ℕ) = msgTag.length from rfl, List.drop_left, ← List.append_assoc]
    have hsplit : splitHsep (a ++ hsepSep ++ b) = [a, b] := by
      rw [splitHsep_mid a b (fun c hc => digit_ne_dash (ha c hc)),
        splitHsep_no_dash b (fun c hc => digit_ne_dash (hb c hc))]
    unfold parseDHT22Message
    rw [if_pos hpre, hdrop, hsplit]
    simp [goParseFloat_digits a hane ha, goParseFloat_digits b hbne hb]
  · intro line h
    unfold parseDHT22Message
    rw [if_neg (by simp [h])]

/-- Witness for C6 at the spec's own scenario line `MSG:T:225-H:550`
(22.5 °C, 55.0 %), plus an interleaved protocol line `FAN:50` that lacks the
tag prefix. -/
theorem claim_C6_witness :
    parseDHT22Message (msgTag ++ "225".toList ++ hsepSep ++ "550".toList) =
      some { Temperature := (digitsToNat "225".toList : ℚ) / 10,
             Humidity := (digitsToNat "550".toList : ℚ) / 10 }
    ∧ parseDHT22Message ("FAN:50".toList) = none :=
  ⟨claim_C6.1 ("225".toList) ("550".toList) (by decide) (by decide) (by decide) (by decide),
   claim_C6.2 ("FAN:50".toList) (by decide)⟩

/-! ## C3 — getGPUTemperatures -/

theorem foldl_parse_filterMap (lines : List (List Char)) (acc : List GPUTemperature) :
    lines.foldl
      (fun temps line =>
        match parseGPULine line with
        | some t => temps ++ [t]
        | none => temps)
      acc = acc ++ lines.filterMap parseGPULine := by
  induction lines generalizing acc with
  | nil => simp
  | cons l rest ih =>
    cases h : parseGPULine l <;> simp [List.filterMap_cons, h, ih]

/-- Counterexample to claim C3 as stated: the output `garbage` contains no
usable rows (the per-line parser rejects its only line), yet
`getGPUTemperatures` succeeds with the empty list instead of failing with a
parse error.  The only error path in the Go function is failure of the
`nvidia-smi` invocation itself. -/
theorem claim_C3_counterexample :
    (splitLines (trimSpace ("garbage".toList))).filterMap parseGPULine = []
    ∧ getGPUTemperatures (some ("garbage".toList)) = some [] := by
  constructor <;> decide

/-- Claim C3, amended: `getGPUTemperatures` fails exactly when the upstream
tool invocation itself fails; for any output text it succeeds, skipping each
malformed line individually (fewer than three comma-separated fields,
non-integer index, or non-numeric temperature) and returning the remaining
well-formed rows — in particular output with no usable rows yields the empty
list, not an error, and a single bad line never fails the whole batch. -/
theorem claim_C3_amended :
    getGPUTemperatures none = none
    ∧ (∀ output : List Char,
        getGPUTemperatures (some output) =
          some ((splitLines (trimSpace output)).filterMap parseGPULine)) := by
  refine ⟨rfl, fun output => ?_⟩
  show some ((splitLines (trimSpace output)).foldl
    (fun temps line =>
      match parseGPULine line with
      | some t => temps ++ [t]
      | none => temps) []) = _
  rw [foldl_parse_filterMap]
  simp

/-! ## C10 — empty reading list commands the default duty cycle -/

/-- Claim C10: for the empty list of GPU readings `calculateFanSpeed`
returns exactly 50, the same value used to initialize `LastFanSpeed`
(and not the 30 % floor of the fan curve). -/
theorem claim_C10 :
    calculateFanSpeed [] = 50
    ∧ initialAlertState.LastFanSpeed = 50
    ∧ calculateFanSpeed [] ≠ 30 := by
  refine ⟨rfl, rfl, by decide⟩

/-! ## C9 — setFanSpeed clamps and writes a single FAN line -/

theorem toDigits_no_newline : ∀ m : ℕ, m ≤ 100 → (Nat.toDigits 10 m).count '\n' = 0 := by
  decide

/-- Claim C9: for every integer input speed, including negative values and
values above 100, the line written by `setFanSpeed` is exactly
`FAN:<n>\n` where `n` is the input clamped to `[0, 100]`; an out-of-range
value is never written, and the command is a single newline-terminated
line. -/
theorem claim_C9 :
    ∀ speed : ℤ, ∃ n : ℤ, 0 ≤ n ∧ n ≤ 100 ∧ n = max 0 (min 100 speed) ∧
      setFanSpeedLine speed = ('F' :: 'A' :: 'N' :: ':' :: []) ++ goIntToString n ++ ['\n']
      ∧ (goIntToString n).count '\n' = 0 := by
  intro speed
  refine ⟨max 0 (min 100 speed), le_max_left 0 _, ?_, rfl, ?_, ?_⟩
  · rcases le_total speed 100 with h | h
    · simp [min_eq_right h]
      omega
    · simp [min_eq_left h]
  · simp only [setFanSpeedLine]
    congr 2
    rcases lt_or_le speed 0 with h | h
    · rw [if_pos h]
      have : min 100 speed ≤ 0 := by omega
      have h2 : max 0 (min 100 speed) = 0 := by omega
      rw [h2]
      norm_num
    · rw [if_neg (not_lt.mpr h)]
      rcases lt_or_le (100 : ℤ) speed with h1 | h1
      · rw [if_pos h1]
        have h2 : max 0 (min 100 speed) = 100 := by omega
        rw [h2]
      · rw [if_neg (not_lt.mpr h1)]
        have h2 : max 0 (min 100 speed) = speed := by omega
        rw [h2]
  · have hn0 : (0 : ℤ) ≤ max 0 (min 100 speed) := le_max_left 0 _
    have hn100 : max 0 (min 100 speed) ≤ 100 := by omega
    unfold goIntToString
    rw [if_neg (not_lt.mpr hn0)]
    exact toDigits_no_newline _ (by omega)

/-! ## C4 — fan curve monotonicity and bounds -/

theorem goTrunc_eq_floor {q : ℚ} (h : 0 ≤ q) : goTrunc q = ⌊q⌋ := if_pos h

theorem fanCurve_eq_band2 {t : ℚ} (h1 : 50 ≤ t) (h2 : t < 60) :
    fanCurve t = 30 + ⌊(t - 50) * 2⌋ := by
  unfold fanCurve
  rw [if_neg (not_lt.mpr (by linarith)), if_pos h2, goTrunc_eq_floor (by linarith)]

theorem fanCurve_eq_band3 {t : ℚ} (h1 : 60 ≤ t) (h2 : t < 70) :
    fanCurve t = 50 + ⌊(t - 60) * (5 / 2 : ℚ)⌋ := by
  unfold fanCurve
  rw [if_neg (not_lt.mpr (by linarith)), if_neg (not_lt.mpr h1), if_pos h2,
    goTrunc_eq_floor (by linarith)]

theorem fanCurve_eq_band4 {t : ℚ} (h1 : 70 ≤ t) (h2 : t < 80) :
    fanCurve t = 75 + ⌊(t - 70) * (3 / 2 : ℚ)⌋ := by
  unfold fanCurve
  rw [if_neg (not_lt.mpr (by linarith)), if_neg (not_lt.mpr (by linarith)),
    if_neg (not_lt.mpr h1), if_pos h2, goTrunc_eq_floor (by linarith)]

theorem fanCurve_low {t : ℚ} (h : t < 50) : fanCurve t = 30 := by
  unfold fanCurve
  rw [if_pos h]

theorem fanCurve_high {t : ℚ} (h : 80 ≤ t) : fanCurve t = 100 := by
  unfold fanCurve
  rw [if_neg (not_lt.mpr (by linarith)), if_neg (not_lt.mpr (by linarith)),
    if_neg (not_lt.mpr (by linarith)), if_neg (not_lt.mpr h)]

theorem band2_bounds {t : ℚ} (h1 : 50 ≤ t) (h2 : t < 60) :
    30 ≤ fanCurve t ∧ fanCurve t ≤ 49 := by
  rw [fanCurve_eq_band2 h1 h2]
  have hl : (0 : ℤ) ≤ ⌊(t - 50) * 2⌋ := Int.floor_nonneg.mpr (by linarith)
  have hu : ⌊(t - 50) * 2⌋ < 20 := Int.floor_lt.mpr (by push_cast; linarith)
  omega

theorem band3_bounds {t : ℚ} (h1 : 60 ≤ t) (h2 : t < 70) :
    50 ≤ fanCurve t ∧ fanCurve t ≤ 74 := by
  rw [fanCurve_eq_band3 h1 h2]
  have hl : (0 : ℤ) ≤ ⌊(t - 60) * (5 / 2 : ℚ)⌋ := Int.floor_nonneg.mpr (by linarith)
  have hu : ⌊(t - 60) * (5 / 2 : ℚ)⌋ < 25 := Int.floor_lt.mpr (by push_cast; linarith)
  omega

theorem band4_bounds {t : ℚ} (h1 : 70 ≤ t) (h2 : t < 80) :
    75 ≤ fanCurve t ∧ fanCurve t ≤ 89 := by
  rw [fanCurve_eq_band4 h1 h2]
  have hl : (0 : ℤ) ≤ ⌊(t - 70) * (3 / 2 : ℚ)⌋ := Int.floor_nonneg.mpr (by linarith)
  have hu : ⌊(t - 70) * (3 / 2 : ℚ)⌋ < 15 := Int.floor_lt.mpr (by push_cast; linarith)
  omega

theorem fanCurve_lb (t : ℚ) : 30 ≤ fanCurve t := by
  rcases lt_or_le t 50 with h | h
  · rw [fanCurve_low h]
  rcases lt_or_le t 60 with h2 | h2
  · exact (band2_bounds h h2).1
  rcases lt_or_le t 70 with h3 | h3
  · linarith [(band3_bounds h2 h3).1]
  rcases lt_or_le t 80 with h4 | h4
  · linarith [(band4_bounds h3 h4).1]
  · rw [fanCurve_high h4]; norm_num

theorem fanCurve_ub (t : ℚ) : fanCurve t ≤ 100 := by
  rcases lt_or_le t 50 with h | h
  · rw [fanCurve_low h]; norm_num
  rcases lt_or_le t 60 with h2 | h2
  · linarith [(band2_bounds h h2).2]
  rcases lt_or_le t 70 with h3 | h3
  · linarith [(band3_bounds h2 h3).2]
  rcases lt_or_le t 80 with h4 | h4
  · linarith [(band4_bounds h3 h4).2]
  · rw [fanCurve_high h4]

theorem fanCurve_ge50 {t : ℚ} (h : 60 ≤ t) : 50 ≤ fanCurve t := by
  rcases lt_or_le t 70 with h3 | h3
  · exact (band3_bounds h h3).1
  rcases lt_or_le t 80 with h4 | h4
  · linarith [(band4_bounds h3 h4).1]
  · rw [fanCurve_high h4]; norm_num

theorem fanCurve_ge75 {t : ℚ} (h : 70 ≤ t) : 75 ≤ fanCurve t := by
  rcases lt_or_le t 80 with h4 | h4
  · exact (band4_bounds h h4).1
  · rw [fanCurve_high h4]; norm_num

theorem fanCurve_mono {t u : ℚ} (htu : t ≤ u) : fanCurve t ≤ fanCurve u := by
  rcases lt_or_le t 50 with h1 | h1
  · rw [fanCurve_low h1]; exact fanCurve_lb u
  rcases lt_or_le t 60 with h2 | h2
  · rcases lt_or_le u 60 with h3 | h3
    · rw [fanCurve_eq_band2 h1 h2, fanCurve_eq_band2 (by linarith) h3]
      have := Int.floor_le_floor (show (t - 50) * 2 ≤ (u - 50) * 2 by linarith)
      omega
    · linarith [(band2_bounds h1 h2).2, fanCurve_ge50 h3]
  rcases lt_or_le t 70 with h3 | h3
  · rcases lt_or_le u 70 with h4 | h4
    · rw [fanCurve_eq_band3 h2 h3, fanCurve_eq_band3 (by linarith) h4]
      have := Int.floor_le_floor
        (show (t - 60) * (5 / 2 : ℚ) ≤ (u - 60) * (5 / 2 : ℚ) by linarith)
      omega
    · linarith [(band3_bounds h2 h3).2, fanCurve_ge75 h4]
  rcases lt_or_le t 80 with h4 | h4
  · rcases lt_or_le u 80 with h5 | h5
    · rw [fanCurve_eq_band4 h3 h4, fanCurve_eq_band4 (by linarith) h5]
      have := Int.floor_le_floor
        (show (t - 70) * (3 / 2 : ℚ) ≤ (u - 70) * (3 / 2 : ℚ) by linarith)
      omega
    · rw [fanCurve_high h5]; exact fanCurve_ub t
  · rw [fanCurve_high h4, fanCurve_high (by linarith)]

theorem ite_lt_eq_max (m t : ℚ) : (if m < t then t else m) = max m t := by
  rcases lt_or_le m t with h | h
  · rw [if_pos h, max_eq_right (le_of_lt h)]
  · rw [if_neg (not_lt.mpr h), max_eq_left h]

theorem maxGpuTemp_foldl_max (l : List GPUTemperature) :
    maxGpuTemp l = (l.map (fun g => g.Temperature)).foldl max 0 := by
  unfold maxGpuTemp
  rw [List.foldl_map]
  congr 1
  funext m g
  exact ite_lt_eq_max m g.Temperature

theorem foldl_max_pull (l : List ℚ) : ∀ c a : ℚ, l.foldl max (max c a) = max c (l.foldl max a) := by
  induction l with
  | nil => intro c a; rfl
  | cons x xs ih =>
    intro c a
    show xs.foldl max (max (max c a) x) = max c (xs.foldl max (max a x))
    rw [max_assoc, ih c (max a x)]

theorem listMaxTemp_foldl (g : GPUTemperature) (gs : List GPUTemperature) :
    listMaxTemp (g :: gs) = (gs.map (fun x => x.Temperature)).foldl max g.Temperature := by
  unfold listMaxTemp
  rw [List.foldl_map]

theorem maxGpuTemp_eq_max_zero (l : List GPUTemperature) (h : l ≠ []) :
    maxGpuTemp l = max 0 (listMaxTemp l) := by
  cases l with
  | nil => exact absurd rfl h
  | cons g gs =>
    rw [maxGpuTemp_foldl_max, listMaxTemp_foldl]
    show (g.Temperature :: (gs.map (fun x => x.Temperature))).foldl max 0 = _
    rw [List.foldl_cons, foldl_max_pull]

theorem calculateFanSpeed_eq (l : List GPUTemperature) (h : l ≠ []) :
    calculateFanSpeed l = fanCurve (max 0 (listMaxTemp l)) := by
  unfold calculateFanSpeed
  rw [if_neg h, maxGpuTemp_eq_max_zero l h]

/-- Claim C4: `calculateFanSpeed` is monotonically non-decreasing in the
maximum temperature of the reading list, and for every non-empty reading
list — including negative and extreme temperature values — the result lies
in `[30, 100]`, with exactly 100 for every maximum temperature of 80 °C or
above and exactly 30 for every maximum temperature below 50 °C. -/
theorem claim_C4 :
    (∀ l1 l2 : List GPUTemperature, l1 ≠ [] → l2 ≠ [] →
      listMaxTemp l1 ≤ listMaxTemp l2 → calculateFanSpeed l1 ≤ calculateFanSpeed l2)
    ∧ (∀ l : List GPUTemperature, l ≠ [] →
        30 ≤ calculateFanSpeed l ∧ calculateFanSpeed l ≤ 100)
    ∧ (∀ l : List GPUTemperature, l ≠ [] → 80 ≤ listMaxTemp l → calculateFanSpeed l = 100)
    ∧ (∀ l : List GPUTemperature, l ≠ [] → listMaxTemp l < 50 → calculateFanSpeed l = 30) := by
  refine ⟨?_, ?_, ?_, ?_⟩
  · intro l1 l2 h1 h2 hle
    rw [calculateFanSpeed_eq l1 h1, calculateFanSpeed_eq l2 h2]
    exact fanCurve_mono (max_le_max le_rfl hle)
  · intro l h
    rw [calculateFanSpeed_eq l h]
    exact ⟨fanCurve_lb _, fanCurve_ub _⟩
  · intro l h h80
    rw [calculateFanSpeed_eq l h, max_eq_right (by linarith)]
    exact fanCurve_high h80
  · intro l h h50
    rw [calculateFanSpeed_eq l h]
    exact fanCurve_low (by simp only [max_lt_iff]; constructor <;> linarith)

/-- Witness for C4 on the spec's scenario `{60 °C, 82 °C}` plus an extreme
negative reading. -/
theorem claim_C4_witness :
    calculateFanSpeed [{ Index := 0, Temperature := 60, Name := [] }] ≤
      calculateFanSpeed [{ Index := 0, Temperature := 60, Name := [] },
        { Index := 1, Temperature := 82, Name := [] }]
    ∧ (30 ≤ calculateFanSpeed [{ Index := 0, Temperature := -1000, Name := [] }]
       ∧ calculateFanSpeed [{ Index := 0, Temperature := -1000, Name := [] }] ≤ 100)
    ∧ calculateFanSpeed [{ Index := 0, Temperature := 60, Name := [] },
        { Index := 1, Temperature := 82, Name := [] }] = 100
    ∧ calculateFanSpeed [{ Index := 0, Temperature := -1000, Name := [] }] = 30 :=
  ⟨claim_C4.1 _ _ (by decide) (by decide) (by decide),
   claim_C4.2.1 _ (by decide),
   claim_C4.2.2.1 _ (by decide) (by decide),
   claim_C4.2.2.2 _ (by decide) (by decide)⟩

/-! ## C7 — device discovery -/

theorem detectScan_found (pre : List (String × CandidateBehavior))
    (c : String × CandidateBehavior) (post : List (String × CandidateBehavior))
    (hpre : ∀ b ∈ pre, probeCandidate b.2 = false) (hc : probeCandidate c.2 = true) :
    detectScan (pre ++ c :: post) = (some c, pre.length + 1) := by
  induction pre with
  | nil =>
    show detectScan (c :: post) = (some c, 1)
    cases c with
    | mk p b =>
      simp only [detectScan]
      rw [if_pos hc]
  | cons q qre ih =>
    have hq : probeCandidate q.2 = false := hpre q (by simp)
    have ihr := ih (fun b hb => hpre b (by simp [hb]))
    show detectScan (q :: (qre ++ c :: post)) = _
    cases q with
    | mk p b =>
      simp only [detectScan]
      rw [if_neg (by simp [hq]), ihr]
      simp [List.length_cons]

theorem detectScan_none (l : List (String × CandidateBehavior))
    (h : ∀ b ∈ l, probeCandidate b.2 = false) :
    detectScan l = (none, l.length) := by
  induction l with
  | nil => rfl
  | cons q rest ih =>
    have hq : probeCandidate q.2 = false := h q (by simp)
    cases q with
    | mk p b =>
      simp only [detectScan]
      rw [if_neg (by simp_all), ih (fun x hx => h x (by simp [hx]))]
      simp

/-- Claim C7: run against candidate paths of which only the k-th (1-indexed;
here `pre.length + 1`-th) responds with a recognised signature line, device
discovery returns exactly that device handle and path having attempted
exactly `pre.length + 1 ≤ k` opens — it stops scanning the remaining
candidates on the match; an empty candidate list fails with the
no-candidate-devices error before any open, and if all candidates are
exhausted without a match it fails with an error carrying the list of all
paths tried. -/
theorem claim_C7 :
    detectArduino [] = (Except.error DetectError.noDevices, 0)
    ∧ (∀ (pre : List (String × CandidateBehavior)) (c : String × CandidateBehavior)
        (post : List (String × CandidateBehavior)),
        (∀ b ∈ pre, probeCandidate b.2 = false) → probeCandidate c.2 = true →
        detectArduino (pre ++ c :: post) = (Except.ok c, pre.length + 1))
    ∧ (∀ cands : List (String × CandidateBehavior), cands ≠ [] →
        (∀ b ∈ cands, probeCandidate b.2 = false) →
        detectArduino cands =
          (Except.error (DetectError.notFound (cands.map (fun x => x.1))), cands.length)) := by
  refine ⟨rfl, ?_, ?_⟩
  · intro pre c post hpre hc
    unfold detectArduino
    rw [if_neg (by simp), detectScan_found pre c post hpre hc]
  · intro cands hne hall
    unfold detectArduino
    rw [if_neg hne, detectScan_none cands hall]

/-- Witness for C7: three candidates where the first fails to open and the
second answers with an ambient-format line; plus a two-candidate list where
nothing responds. -/
theorem claim_C7_witness :
    detectArduino
        [("/dev/ttyACM0", { openOk := false, writeOk := true, lines := [] }),
         ("/dev/ttyUSB0", { openOk := true, writeOk := true, lines := ["boot noise".toList, "MSG:T:225-H:550".toList] }),
         ("/dev/ttyUSB1", { openOk := true, writeOk := true, lines := [] })] =
      (Except.ok ("/dev/ttyUSB0", { openOk := true, writeOk := true, lines := ["boot noise".toList, "MSG:T:225-H:550".toList] }), 2)
    ∧ detectArduino
        [("/dev/ttyACM0", { openOk := true, writeOk := false, lines := [] }),
         ("/dev/ttyUSB0", { openOk := true, writeOk := true, lines := ["junk".toList] })] =
      (Except.error (DetectError.notFound ["/dev/ttyACM0", "/dev/ttyUSB0"]), 2) :=
  ⟨claim_C7.2.1
      [("/dev/ttyACM0", { openOk := false, writeOk := true, lines := [] })]
      ("/dev/ttyUSB0", { openOk := true, writeOk := true, lines := ["boot noise".toList, "MSG:T:225-H:550".toList] })
      [("/dev/ttyUSB1", { openOk := true, writeOk := true, lines := [] })]
      (by decide) (by decide),
   claim_C7.2.2 _ (by decide) (by decide)⟩

/-! ## State-machine lemmas shared by C1, C2, C5, C8 -/

theorem fanControlStep_flags (st : AlertState) (temps : List GPUTemperature) (w : Bool) :
    (fanControlStep st temps w).GPUWarning = st.GPUWarning
    ∧ (fanControlStep st temps w).GPUCritical = st.GPUCritical
    ∧ (fanControlStep st temps w).AmbientWarning = st.AmbientWarning := by
  simp only [fanControlStep]
  split_ifs <;> simp

theorem ambientStep_gpu_flags (cfg : Config) (st : AlertState) (r : DHT22Reading)
    (w rec : Bool) :
    (ambientStep cfg st r w rec).1.GPUWarning = st.GPUWarning
    ∧ (ambientStep cfg st r w rec).1.GPUCritical = st.GPUCritical
    ∧ (ambientStep cfg st r w rec).1.LastFanSpeed = st.LastFanSpeed := by
  simp only [ambientStep]
  split_ifs <;> simp

theorem ambientSection_gpu_flags (cfg : Config) (st : AlertState) (inp : TickInput) :
    (ambientSectionStep cfg st inp).1.GPUWarning = st.GPUWarning
    ∧ (ambientSectionStep cfg st inp).1.GPUCritical = st.GPUCritical := by
  unfold ambientSectionStep
  cases hl : inp.serialLine with
  | none => simp
  | some line =>
    cases hp : parseDHT22Message line with
    | none => simp [hp]
    | some r =>
      have h := ambientStep_gpu_flags cfg st r inp.ambWarnSendOk inp.ambRecvSendOk
      simp [hp, h.1, h.2.1]

theorem gpuAlertStep_flags_eq (cfg : Config) (st : AlertState)
    (temps : List GPUTemperature) (cOk wOk rOk : Bool) :
    ((gpuAlertStep cfg st temps cOk wOk rOk).1.GPUWarning,
     (gpuAlertStep cfg st temps cOk wOk rOk).1.GPUCritical)
      = gpuFlagsTransition cfg st.GPUWarning st.GPUCritical (maxGpuTemp temps) cOk wOk := by
  simp only [gpuAlertStep, gpuFlagsTransition]
  split_ifs <;> simp_all

theorem gpuAlertStep_other (cfg : Config) (st : AlertState)
    (temps : List GPUTemperature) (cOk wOk rOk : Bool) :
    (gpuAlertStep cfg st temps cOk wOk rOk).1.AmbientWarning = st.AmbientWarning
    ∧ (gpuAlertStep cfg st temps cOk wOk rOk).1.LastFanSpeed = st.LastFanSpeed
    ∧ (gpuAlertStep cfg st temps cOk wOk rOk).1.LastAmbientTemp = st.LastAmbientTemp := by
  simp only [gpuAlertStep]
  split_ifs <;> simp

theorem gpuAlertStep_inv (cfg : Config) (st : AlertState)
    (temps : List GPUTemperature) (cOk wOk rOk : Bool) (h : AlertInv st) :
    AlertInv (gpuAlertStep cfg st temps cOk wOk rOk).1 := by
  unfold AlertInv at *
  simp only [gpuAlertStep]
  split_ifs <;> simp_all

theorem gpuSection_inv (cfg : Config) (st : AlertState) (inp : TickInput)
    (h : AlertInv st) : AlertInv (gpuSectionStep cfg st inp).1 := by
  unfold gpuSectionStep
  cases hg : inp.gpu with
  | none => simpa using h
  | some temps =>
    apply gpuAlertStep_inv
    have hf := fanControlStep_flags st temps inp.fanWriteOk
    intro hc
    rw [hf.1]
    exact h (by rw [← hf.2.1]; exact hc)

theorem monitor_inv (cfg : Config) (st : AlertState) (inp : TickInput)
    (h : AlertInv st) : AlertInv (monitorAndControl cfg st inp).1 := by
  show AlertInv (ambientSectionStep cfg (gpuSectionStep cfg st inp).1 inp).1
  have h1 := gpuSection_inv cfg st inp h
  have h2 := ambientSection_gpu_flags cfg (gpuSectionStep cfg st inp).1 inp
  intro hc
  rw [h2.1]
  exact h1 (by rw [← h2.2]; exact hc)

theorem runTicks_inv (inps : List TickInput) (cfg : Config) :
    ∀ st : AlertState, AlertInv st → AlertInv (runTicks cfg st inps).1 := by
  induction inps with
  | nil => intro st h; exact h
  | cons inp rest ih =>
    intro st h
    show AlertInv (runTicks cfg (monitorAndControl cfg st inp).1 rest).1
    exact ih _ (monitor_inv cfg st inp h)

/-! ## C1 — per-channel alert records -/

/-- Counterexample to claim C1 as stated: the code keeps a single pair of
GPU alert flags, driven by the maximum reading over all GPU channels, not
one record per GPU index.  With the same reading (60 °C) for channel 0 in
both runs, adding a second channel at 85 °C changes the alert state, so the
update is not a function of channel 0's own previous state and reading. -/
theorem claim_C1_counterexample :
    ((gpuAlertStep defaultConfig initialAlertState [{ Index := 0, Temperature := 60, Name := [] }] true true true).1.GPUWarning = false)
    ∧ ((gpuAlertStep defaultConfig initialAlertState [{ Index := 0, Temperature := 60, Name := [] }, { Index := 1, Temperature := 85, Name := [] }] true true true).1.GPUWarning = true) := by
  constructor <;> decide

/-- Claim C1, amended: the alert state machine maintains one persistent
record for the ambient channel and a single shared record for all GPU
channels (not one per GPU index); on every tick in which GPU readings are
acquired, the shared GPU record is updated exactly once, as a deterministic
function of (its previous flags, the maximum temperature across all GPU
readings of the tick, the configured thresholds, the dispatch outcomes) —
hence it depends on the other channels' readings through their maximum.
The GPU machine touches nothing but its own record, and the ambient machine
never touches the GPU record. -/
theorem claim_C1_amended :
    ∀ (cfg : Config) (st : AlertState) (temps : List GPUTemperature) (cOk wOk rOk : Bool),
      (((gpuAlertStep cfg st temps cOk wOk rOk).1.GPUWarning,
        (gpuAlertStep cfg st temps cOk wOk rOk).1.GPUCritical)
        = gpuFlagsTransition cfg st.GPUWarning st.GPUCritical (maxGpuTemp temps) cOk wOk)
      ∧ ((gpuAlertStep cfg st temps cOk wOk rOk).1.AmbientWarning = st.AmbientWarning
         ∧ (gpuAlertStep cfg st temps cOk wOk rOk).1.LastAmbientTemp = st.LastAmbientTemp)
      ∧ (∀ (r : DHT22Reading) (aw ar : Bool),
          (ambientStep cfg st r aw ar).1.GPUWarning = st.GPUWarning
          ∧ (ambientStep cfg st r aw ar).1.GPUCritical = st.GPUCritical) := by
  intro cfg st temps cOk wOk rOk
  refine ⟨gpuAlertStep_flags_eq cfg st temps cOk wOk rOk, ?_, ?_⟩
  · exact ⟨(gpuAlertStep_other cfg st temps cOk wOk rOk).1,
      (gpuAlertStep_other cfg st temps cOk wOk rOk).2.2⟩
  · intro r aw ar
    exact ⟨(ambientStep_gpu_flags cfg st r aw ar).1, (ambientStep_gpu_flags cfg st r aw ar).2.1⟩

/-! ## C5 — the critical-implies-warning invariant -/

/-- Claim C5: starting from the initial state (both flags false), the
invariant `critical_open → warning_open` holds for every reachable alert
state, and every single tick preserves it from any state satisfying it,
whatever the readings and dispatch outcomes. -/
theorem claim_C5 :
    (∀ (cfg : Config) (st : AlertState) (inp : TickInput),
      AlertInv st → AlertInv (monitorAndControl cfg st inp).1)
    ∧ (∀ (cfg : Config) (inps : List TickInput),
        AlertInv (runTicks cfg initialAlertState inps).1) :=
  ⟨monitor_inv, fun cfg inps => runTicks_inv inps cfg initialAlertState (by decide)⟩

/-- Witness for C5 at a concrete tick that fires a critical alert and an
ambient reading in the same tick. -/
theorem claim_C5_witness :
    AlertInv (monitorAndControl defaultConfig initialAlertState { gpu := some [{ Index := 0, Temperature := 85, Name := [] }], serialLine := some ("MSG:T:250-H:400".toList), fanWriteOk := true, critSendOk := true, warnSendOk := true, recvSendOk := true, ambWarnSendOk := true, ambRecvSendOk := true }).1 :=
  claim_C5.1 defaultConfig initialAlertState _ (by decide)

/-! ## C2 — failed dispatches and state retention -/

/-- Counterexample to claim C2 as stated: start from the initial state, open
a warning at 72 °C (send succeeds), then read 65 °C with the Recovery send
FAILING.  No recovery event is dispatched (the trace holds only the
warning), yet both GPU flags are cleared anyway — the source clears them
outside the send-error check — so the flags are not "cleared only if the
Recovery alert send succeeds" and the lost recovery alert is never
retried. -/
theorem claim_C2_counterexample :
    (runTicks defaultConfig initialAlertState [{ gpu := some [{ Index := 0, Temperature := 72, Name := [] }], serialLine := none, fanWriteOk := true, critSendOk := true, warnSendOk := true, recvSendOk := true, ambWarnSendOk := true, ambRecvSendOk := true }]).1.GPUWarning = true
    ∧ (runTicks defaultConfig initialAlertState [{ gpu := some [{ Index := 0, Temperature := 72, Name := [] }], serialLine := none, fanWriteOk := true, critSendOk := true, warnSendOk := true, recvSendOk := true, ambWarnSendOk := true, ambRecvSendOk := true }, { gpu := some [{ Index := 0, Temperature := 65, Name := [] }], serialLine := none, fanWriteOk := true, critSendOk := true, warnSendOk := true, recvSendOk := false, ambWarnSendOk := true, ambRecvSendOk := true }]).2 = [Event.gpu GpuEvent.warning]
    ∧ (runTicks defaultConfig initialAlertState [{ gpu := some [{ Index := 0, Temperature := 72, Name := [] }], serialLine := none, fanWriteOk := true, critSendOk := true, warnSendOk := true, recvSendOk := true, ambWarnSendOk := true, ambRecvSendOk := true }, { gpu := some [{ Index := 0, Temperature := 65, Name := [] }], serialLine := none, fanWriteOk := true, critSendOk := true, warnSendOk := true, recvSendOk := false, ambWarnSendOk := true, ambRecvSendOk := true }]).1.GPUWarning = false := by
  refine ⟨by with_unfolding_all decide, by with_unfolding_all decide, by with_unfolding_all decide⟩

/-- Claim C2, amended: a failed fan-speed write leaves the state (in
particular `LastFanSpeed`) unchanged; a failed Critical send leaves the
state unchanged; a failed Warning send (from a state with no warning open)
leaves the state unchanged, so the next tick retries; a failed ambient send
leaves the ambient flag unchanged; BUT on a recovery reading the GPU
warning/critical flags are cleared even when the Recovery send fails, so
the recovery alert is lost rather than retried. -/
theorem claim_C2_amended :
    (∀ (st : AlertState) (temps : List GPUTemperature),
      fanControlStep st temps false = st)
    ∧ (∀ (cfg : Config) (st : AlertState) (temps : List GPUTemperature) (wOk rOk : Bool),
        cfg.CriticalThreshold < maxGpuTemp temps →
        gpuAlertStep cfg st temps false wOk rOk = (st, none))
    ∧ (∀ (cfg : Config) (st : AlertState) (temps : List GPUTemperature) (cOk rOk : Bool),
        AlertInv st → ¬ cfg.CriticalThreshold < maxGpuTemp temps →
        cfg.WarningThreshold < maxGpuTemp temps → st.GPUWarning = false →
        gpuAlertStep cfg st temps cOk false rOk = (st, none))
    ∧ (∀ (cfg : Config) (st : AlertState) (temps : List GPUTemperature) (cOk wOk : Bool),
        ¬ cfg.CriticalThreshold < maxGpuTemp temps →
        ¬ cfg.WarningThreshold < maxGpuTemp temps →
        (st.GPUWarning = true ∨ st.GPUCritical = true) →
        (gpuAlertStep cfg st temps cOk wOk false).1.GPUWarning = false
        ∧ (gpuAlertStep cfg st temps cOk wOk false).1.GPUCritical = false
        ∧ (gpuAlertStep cfg st temps cOk wOk false).2 = none)
    ∧ (∀ (cfg : Config) (st : AlertState) (r : DHT22Reading),
        (ambientStep cfg st r false false).1.AmbientWarning = st.AmbientWarning
        ∧ (ambientStep cfg st r false false).2 = none) := by
  refine ⟨?_, ?_, ?_, ?_, ?_⟩
  · intro st temps
    simp only [fanControlStep]
    split_ifs <;> simp_all
  · intro cfg st temps wOk rOk h
    simp only [gpuAlertStep]
    rw [if_pos h]
    split_ifs <;> simp_all
  · intro cfg st temps cOk rOk hInv hc hw hW
    have hcrit : st.GPUCritical = false := by
      cases h : st.GPUCritical
      · rfl
      · exact absurd (hInv h) (by simp [hW])
    simp only [gpuAlertStep]
    rw [if_neg hc, if_pos hw]
    simp [hW, hcrit]
  · intro cfg st temps cOk wOk h1 h2 hor
    have hcond : (st.GPUWarning || st.GPUCritical) = true := by
      rcases hor with h | h <;> simp [h]
    simp only [gpuAlertStep]
    rw [if_neg h1, if_neg h2, if_pos hcond]
    simp
  · intro cfg st r
    simp only [ambientStep]
    split_ifs <;> simp_all

/-- Witness for C2 (amended): a failed fan write at 72 °C, a failed critical
send at 85 °C, a failed warning send at 72 °C — all leave the initial state
untouched — and a failed recovery send at 65 °C from an open-warning state,
which clears the warning flag anyway. -/
theorem claim_C2_amended_witness :
    fanControlStep initialAlertState [{ Index := 0, Temperature := 72, Name := [] }] false = initialAlertState
    ∧ gpuAlertStep defaultConfig initialAlertState [{ Index := 0, Temperature := 85, Name := [] }] false true true = (initialAlertState, none)
    ∧ gpuAlertStep defaultConfig initialAlertState [{ Index := 0, Temperature := 72, Name := [] }] true false true = (initialAlertState, none)
    ∧ (gpuAlertStep defaultConfig { GPUWarning := true, GPUCritical := false, AmbientWarning := false, LastFanSpeed := 50, LastAmbientTemp := 0 } [{ Index := 0, Temperature := 65, Name := [] }] true true false).1.GPUWarning = false :=
  ⟨claim_C2_amended.1 _ _,
   claim_C2_amended.2.1 _ _ _ _ _ (by decide),
   claim_C2_amended.2.2.1 _ _ _ _ _ (by decide) (by decide) (by decide) (by decide),
   (claim_C2_amended.2.2.2.1 _ _ _ _ _ (by decide) (by decide) (Or.inl (by decide))).1⟩

/-! ## C8 — no duplicate Warning events -/

theorem gpuEventsOf_append (l1 l2 : List Event) :
    gpuEventsOf (l1 ++ l2) = gpuEventsOf l1 ++ gpuEventsOf l2 :=
  List.filterMap_append l1 l2 _

theorem gpuEventsOf_mix (g : Option GpuEvent) (a : Option AmbEvent) :
    gpuEventsOf (g.toList.map Event.gpu ++ a.toList.map Event.amb) = g.toList := by
  cases g <;> cases a <;> rfl

theorem monitor_gpuEvents (cfg : Config) (st : AlertState) (inp : TickInput) :
    gpuEventsOf (monitorAndControl cfg st inp).2 = (gpuSectionStep cfg st inp).2.toList :=
  gpuEventsOf_mix _ _

theorem chain_snoc (tr : List GpuEvent) (e : GpuEvent) (h : noConsecWarning tr)
    (he : e = GpuEvent.warning → tr.getLast? ≠ some GpuEvent.warning) :
    noConsecWarning (tr ++ [e]) := by
  unfold noConsecWarning at *
  rw [List.chain'_append]
  refine ⟨h, List.chain'_singleton e, ?_⟩
  intro x hx y hy
  simp only [List.head?_cons, Option.mem_def, Option.some.injEq] at hy
  subst hy
  rintro ⟨hx1, he1⟩
  subst hx1
  exact he he1 (Option.mem_def.mp hx)

theorem gpuSectionStep_none (cfg : Config) (st : AlertState) (inp : TickInput)
    (hg : inp.gpu = none) : gpuSectionStep cfg st inp = (st, none) := by
  unfold gpuSectionStep
  rw [hg]

theorem gpuSectionStep_some (cfg : Config) (st : AlertState) (inp : TickInput)
    (temps : List GPUTemperature) (hg : inp.gpu = some temps) :
    gpuSectionStep cfg st inp =
      gpuAlertStep cfg (fanControlStep st temps inp.fanWriteOk) temps
        inp.critSendOk inp.warnSendOk inp.recvSendOk := by
  unfold gpuSectionStep
  rw [hg]

theorem gpuAlertStep_key (cfg : Config) (st : AlertState)
    (temps : List GPUTemperature) (cOk wOk : Bool) (hInv : AlertInv st) :
    ((gpuAlertStep cfg st temps cOk wOk true).2 = some GpuEvent.warning →
      st.GPUWarning = false)
    ∧ ((gpuAlertStep cfg st temps cOk wOk true).1.GPUWarning = false →
        ((gpuAlertStep cfg st temps cOk wOk true).2 = none ∧ st.GPUWarning = false)
        ∨ (gpuAlertStep cfg st temps cOk wOk true).2 = some GpuEvent.recovery) := by
  unfold AlertInv at hInv
  simp only [gpuAlertStep]
  split_ifs <;> simp_all

theorem gpuSection_key (cfg : Config) (st : AlertState) (inp : TickInput)
    (hr : inp.recvSendOk = true) (hInv : AlertInv st) :
    ((gpuSectionStep cfg st inp).2 = some GpuEvent.warning → st.GPUWarning = false)
    ∧ ((gpuSectionStep cfg st inp).1.GPUWarning = false →
        ((gpuSectionStep cfg st inp).2 = none ∧ st.GPUWarning = false)
        ∨ (gpuSectionStep cfg st inp).2 = some GpuEvent.recovery) := by
  cases hg : inp.gpu with
  | none =>
    rw [gpuSectionStep_none cfg st inp hg]
    simp
  | some temps =>
    rw [gpuSectionStep_some cfg st inp temps hg]
    have hf := fanControlStep_flags st temps inp.fanWriteOk
    have hInv1 : AlertInv (fanControlStep st temps inp.fanWriteOk) := by
      intro hc
      rw [hf.1]
      exact hInv (by rw [← hf.2.1]; exact hc)
    have hk := gpuAlertStep_key cfg (fanControlStep st temps inp.fanWriteOk) temps
      inp.critSendOk inp.warnSendOk hInv1
    rw [hr, ← hf.1]
    exact hk

theorem runTicks_chain (inps : List TickInput) : ∀ (cfg : Config) (st : AlertState)
    (tr : List GpuEvent),
    (∀ inp ∈ inps, inp.recvSendOk = true) → AlertInv st → noConsecWarning tr →
    (st.GPUWarning = false → tr.getLast? ≠ some GpuEvent.warning) →
    noConsecWarning (tr ++ gpuEventsOf (runTicks cfg st inps).2) := by
  induction inps with
  | nil =>
    intro cfg st tr _ _ h3 _
    show noConsecWarning (tr ++ [])
    simpa using h3
  | cons inp rest ih =>
    intro cfg st tr hall hInv hchain hlast
    have hr : inp.recvSendOk = true := hall inp (by simp)
    have hrest : ∀ i ∈ rest, i.recvSendOk = true := fun i hi => hall i (by simp [hi])
    have hkey := gpuSection_key cfg st inp hr hInv
    have hev : (runTicks cfg st (inp :: rest)).2
        = (monitorAndControl cfg st inp).2 ++ (runTicks cfg (monitorAndControl cfg st inp).1 rest).2 := rfl
    rw [hev, gpuEventsOf_append, monitor_gpuEvents, ← List.append_assoc]
    have hchain2 : noConsecWarning (tr ++ (gpuSectionStep cfg st inp).2.toList) := by
      cases hevt : (gpuSectionStep cfg st inp).2 with
      | none => simpa using hchain
      | some e =>
        apply chain_snoc tr e hchain
        intro he
        apply hlast
        apply hkey.1
        rw [hevt, he]
    have hlast2 : (monitorAndControl cfg st inp).1.GPUWarning = false →
        (tr ++ (gpuSectionStep cfg st inp).2.toList).getLast? ≠ some GpuEvent.warning := by
      intro hw
      have hw1 : (gpuSectionStep cfg st inp).1.GPUWarning = false := by
        rw [← (ambientSection_gpu_flags cfg (gpuSectionStep cfg st inp).1 inp).1]
        exact hw
      rcases hkey.2 hw1 with ⟨hnone, hstw⟩ | hrec
      · rw [hnone]
        simpa using hlast hstw
      · rw [hrec]
        simp [List.getLast?_concat]
    exact ih cfg (monitorAndControl cfg st inp).1 (tr ++ (gpuSectionStep cfg st inp).2.toList)
      hrest (monitor_inv cfg st inp hInv) hchain2 hlast2

/-- Counterexample to claim C8 as stated: with dispatch failures allowed,
the three-tick run 72 °C (warning sent), 65 °C (recovery send FAILS —
the flags are cleared anyway and nothing is emitted), 72 °C (warning sent
again) produces the successfully-emitted GPU event sequence
`[Warning, Warning]`: two consecutive warnings with no intervening Recovery
or Critical. -/
theorem claim_C8_counterexample :
    gpuEventsOf (runTicks defaultConfig initialAlertState [{ gpu := some [{ Index := 0, Temperature := 72, Name := [] }], serialLine := none, fanWriteOk := true, critSendOk := true, warnSendOk := true, recvSendOk := true, ambWarnSendOk := true, ambRecvSendOk := true }, { gpu := some [{ Index := 0, Temperature := 65, Name := [] }], serialLine := none, fanWriteOk := true, critSendOk := true, warnSendOk := true, recvSendOk := false, ambWarnSendOk := true, ambRecvSendOk := true }, { gpu := some [{ Index := 0, Temperature := 72, Name := [] }], serialLine := none, fanWriteOk := true, critSendOk := true, warnSendOk := true, recvSendOk := true, ambWarnSendOk := true, ambRecvSendOk := true }]).2
      = [GpuEvent.warning, GpuEvent.warning]
    ∧ ¬ noConsecWarning [GpuEvent.warning, GpuEvent.warning] := by
  constructor
  · with_unfolding_all decide
  · unfold noConsecWarning
    rw [List.chain'_pair]
    simp

/-- Claim C8, amended: for every sequence of per-tick inputs processed from
the initial state in which every Recovery dispatch succeeds, the sequence of
successfully emitted GPU events never contains two consecutive Warning
events without an intervening Recovery or Critical event between them.
(The success assumption is forced: a failed Recovery send still clears the
flags, so the Warning can re-fire with no successfully emitted event in
between.) -/
theorem claim_C8_amended :
    ∀ (cfg : Config) (inps : List TickInput),
      (∀ inp ∈ inps, inp.recvSendOk = true) →
      noConsecWarning (gpuEventsOf (runTicks cfg initialAlertState inps).2) := by
  intro cfg inps hall
  have h := runTicks_chain inps cfg initialAlertState [] hall (by decide)
    List.chain'_nil (by simp)
  simpa using h

/-- Witness for C8 (amended) on a three-tick warn / recover / warn run with
all dispatches succeeding. -/
theorem claim_C8_amended_witness :
    noConsecWarning (gpuEventsOf (runTicks defaultConfig initialAlertState [{ gpu := some [{ Index := 0, Temperature := 72, Name := [] }], serialLine := none, fanWriteOk := true, critSendOk := true, warnSendOk := true, recvSendOk := true, ambWarnSendOk := true, ambRecvSendOk := true }, { gpu := some [{ Index := 0, Temperature := 65, Name := [] }], serialLine := none, fanWriteOk := true, critSendOk := true, warnSendOk := true, recvSendOk := true, ambWarnSendOk := true, ambRecvSendOk := true }, { gpu := some [{ Index := 0, Temperature := 72, Name := [] }], serialLine := none, fanWriteOk := true, critSendOk := true, warnSendOk := true, recvSendOk := true, ambWarnSendOk := true, ambRecvSendOk := true }]).2) :=
  claim_C8_amended defaultConfig _ (by decide)
